import Mathlib

/-!
Verification of the asynchronous document-processing core of the
Atom_Group_Assessment repository: the SQLite-backed persistence layer
(`app/services/persistence.py`), the single background worker and its
in-memory job queue (`app/services/queue_worker.py`), the LLM analysis
retry wrapper (`app/services/llm.py`), and the HTTP route handlers for
upload, delete and the SSE stream (`app/routes/documents.py`).

The database is modelled as explicit lists of rows; each Python function
that touches the database becomes a pure Lean function on that state.
The `status_events` table is a SQLite rowid table (its declared primary
key `event_id` is TEXT, so the implicit integer `rowid` backs the table),
hence a newly inserted event receives rowid `max of rowids currently in
use + 1` — the behaviour documented by SQLite for tables without
AUTOINCREMENT.  That assignment rule is modelled by `nextRowid`.
-/

/-- A row of the `documents` table (schema in `create_tables`). -/
structure DocRow where
  document_id : String
  owner_username : String
  original_filename : String
  stored_path : String
  content_type : Option String
  size_bytes : Nat
  current_status : String
  error_message : Option String
deriving Repr, DecidableEq

/-- A row of the `status_events` table.  `row_num` is the SQLite rowid,
which `get_recent_status_events` / `get_status_events_after_rowid` expose
as the streaming sequence number. -/
structure EventRow where
  row_num : Nat
  event_id : String
  document_id : String
  status : String
  metadata : Option String
  error_message : Option String
deriving Repr, DecidableEq

/-- A row of the `analysis_results` table (`document_id` is the primary key). -/
structure AnalysisRow where
  document_id : String
  summary : String
  key_topics : String
  sentiment : String
  actionable_items : String
  raw_model_output : Option String
deriving Repr, DecidableEq

/-- The three persisted tables.  `status_events` is kept in insertion
order; rowids are stored explicitly in each row. -/
structure DBState where
  documents : List DocRow
  status_events : List EventRow
  analysis_results : List AnalysisRow
deriving Repr, DecidableEq

def emptyDB : DBState := ⟨[], [], []⟩

/-- SQLite rowid assignment for a rowid table without AUTOINCREMENT: one
more than the largest rowid currently in use (1 for an empty table). -/
def nextRowid (events : List EventRow) : Nat :=
  events.foldl (fun m e => max m e.row_num) 0 + 1

/-- `insert_document_metadata` (persistence.py): INSERT one row into
`documents`.  The route always calls it with status `"pending"` and no
error message; the defaults of the Python signature are kept here. -/
def insert_document_metadata (db : DBState) (document_id owner_username
    original_filename stored_path : String) (content_type : Option String)
    (size_bytes : Nat) (status : String := "pending")
    (error_message : Option String := none) : DBState :=
  { db with documents := db.documents ++
      [⟨document_id, owner_username, original_filename, stored_path,
        content_type, size_bytes, status, error_message⟩] }

/-- `insert_status_event` (persistence.py): within one connection (one
transaction, committed once), INSERT the event into `status_events` and
UPDATE the matching document's `current_status` / `error_message`.
`event_id` stands for the fresh `uuid.uuid4()` string. -/
def insert_status_event (db : DBState) (document_id status : String)
    (metadata : Option String := none) (error_message : Option String := none)
    (event_id : String := "") : DBState :=
  { db with
    status_events := db.status_events ++
      [⟨nextRowid db.status_events, event_id, document_id, status, metadata,
        error_message⟩],
    documents := db.documents.map fun d =>
      if d.document_id = document_id then
        { d with current_status := status, error_message := error_message }
      else d }

/-- `insert_analysis_result` (persistence.py): INSERT .. ON CONFLICT
(document_id) DO UPDATE — an upsert keyed on `document_id`. -/
def insert_analysis_result (db : DBState) (document_id summary key_topics
    sentiment actionable_items : String)
    (raw_model_output : Option String := none) : DBState :=
  if db.analysis_results.any (fun a => a.document_id = document_id) then
    { db with analysis_results := db.analysis_results.map fun a =>
        if a.document_id = document_id then
          ⟨document_id, summary, key_topics, sentiment, actionable_items,
           raw_model_output⟩
        else a }
  else
    { db with analysis_results := db.analysis_results ++
        [⟨document_id, summary, key_topics, sentiment, actionable_items,
          raw_model_output⟩] }

/-- `get_document_by_id` (persistence.py): SELECT by id, optionally also
filtering on `owner_username`.  `document_id` is the primary key, so the
first match is the only match. -/
def get_document_by_id (db : DBState) (document_id : String)
    (owner_username : Option String := none) : Option DocRow :=
  match owner_username with
  | none => db.documents.find? fun d => d.document_id = document_id
  | some u => db.documents.find? fun d =>
      d.document_id = document_id ∧ d.owner_username = u

/-- `delete_document_and_related` (persistence.py): look the document up
(owner-scoped when an owner is given); if absent return None leaving the
state untouched, otherwise DELETE its status events, its analysis result
and the document row, and return the deleted document. -/
def delete_document_and_related (db : DBState) (document_id : String)
    (owner_username : Option String := none) : Option DocRow × DBState :=
  match get_document_by_id db document_id owner_username with
  | none => (none, db)
  | some doc =>
      (some doc,
       { documents := db.documents.filter
           (fun d => ¬ d.document_id = document_id),
         status_events := db.status_events.filter
           (fun e => ¬ e.document_id = document_id),
         analysis_results := db.analysis_results.filter
           (fun a => ¬ a.document_id = document_id) })

/-- Insert an event into a list sorted by ascending rowid. -/
def insertByRowid (e : EventRow) : List EventRow → List EventRow
  | [] => [e]
  | x :: xs =>
      if e.row_num ≤ x.row_num then e :: x :: xs else x :: insertByRowid e xs

/-- ORDER BY rowid ASC, modelled as an insertion sort. -/
def orderByRowidAsc : List EventRow → List EventRow
  | [] => []
  | x :: xs => insertByRowid x (orderByRowidAsc xs)

/-- The JOIN filter of the owner-scoped queries: the event is visible to
`u` when a document row with the same id is owned by `u`. -/
def eventVisibleTo (db : DBState) (u : String) (e : EventRow) : Bool :=
  db.documents.any fun d =>
    d.document_id = e.document_id ∧ d.owner_username = u

/-- `get_status_events_after_rowid` (persistence.py): all status events
with rowid strictly greater than the cursor (owner-scoped when an owner
is given), ORDER BY rowid ASC, LIMIT `limit`. -/
def get_status_events_after_rowid (db : DBState) (last_rowid : Nat)
    (limit : Nat := 200) (owner_username : Option String := none) :
    List EventRow :=
  let base := match owner_username with
    | none => db.status_events.filter fun e => last_rowid < e.row_num
    | some u => db.status_events.filter fun e =>
        last_rowid < e.row_num ∧ eventVisibleTo db u e
  (orderByRowidAsc base).take limit

/-- `get_document_analysis_result` (persistence.py): SELECT the analysis
row by document id; when owner-scoped, JOIN against `documents` on the
owner. -/
def get_document_analysis_result (db : DBState) (document_id : String)
    (owner_username : Option String := none) : Option AnalysisRow :=
  match owner_username with
  | none => db.analysis_results.find? fun a => a.document_id = document_id
  | some u =>
      if db.documents.any
          (fun d => d.document_id = document_id ∧ d.owner_username = u) then
        db.analysis_results.find? fun a => a.document_id = document_id
      else none

/-!  Job queue and background worker (`app/services/queue_worker.py`).
The module holds an `asyncio.Queue` of document ids and a global
`current_document_id` marker; both are modelled in `WorkerState`. -/

/-- The worker module's mutable state: the queue contents (FIFO, head =
next to be dequeued) and the global `current_document_id`. -/
structure WorkerState where
  queue : List String
  current_document_id : Option String
deriving Repr, DecidableEq

/-- `is_currently_processing` (queue_worker.py). -/
def is_currently_processing (ws : WorkerState) (document_id : String) : Bool :=
  ws.current_document_id = some document_id

/-- `add_document_to_queue` (queue_worker.py): FIFO enqueue. -/
def add_document_to_queue (ws : WorkerState) (document_id : String) :
    WorkerState :=
  { ws with queue := ws.queue ++ [document_id] }

/-- `deque.remove`: drop the first occurrence, report whether one was
found (`remove_document_from_queue` returns False on ValueError). -/
def removeFirst : List String → String → List String × Bool
  | [], _ => ([], false)
  | x :: xs, document_id =>
      if x = document_id then (xs, true)
      else
        let r := removeFirst xs document_id
        (x :: r.1, r.2)

/-- `remove_document_from_queue` (queue_worker.py). -/
def remove_document_from_queue (ws : WorkerState) (document_id : String) :
    WorkerState × Bool :=
  let r := removeFirst ws.queue document_id
  ({ ws with queue := r.1 }, r.2)

/-- The validated analysis dict produced by `_call_openai_chat_completions`
(llm.py): summary, key_topics, sentiment, actionable_items and the opaque
`completion.model_dump()` payload. -/
structure Analysis where
  summary : String
  key_topics : List String
  sentiment : String
  actionable_items : List String
  raw_model_output : String
deriving Repr, DecidableEq

/-- `json.dumps` of a list of strings, as the worker stores `key_topics`
and `actionable_items` (string escaping is not modelled; no claim
inspects the serialized text). -/
def json_dumps_list (l : List String) : String :=
  "[" ++ String.intercalate ", " (l.map fun s => "\"" ++ s ++ "\"") ++ "]"

/-- Metadata payload literals from queue_worker.py. -/
def extractionStartedMeta : String :=
  "\x7b\"info\": \"Text extraction started.\"\x7d"

def analysisStartedMeta : String :=
  "\x7b\"info\": \"LLM analysis started.\"\x7d"

def completedMeta : String :=
  "\x7b\"info\": \"Processing completed.\"\x7d"

def failedMeta : String :=
  "\x7b\"info\": \"Processing failed.\"\x7d"

/-- The per-job environment: the outcome of the two external collaborator
calls for this document (`.error msg` is the collaborator raising, with
`str(e) = msg`; via the catch-all `except` clause this also covers any
unexpected exception raised inside those steps), and the fresh
`uuid.uuid4()` event ids for the events the job may insert. -/
structure JobEnv where
  extract : Except String String
  analyze : Except String Analysis
  eid_processing : String := ""
  eid_analyzing : String := ""
  eid_completed : String := ""
  eid_failed : String := ""

/-- The try/except body of `background_worker` (queue_worker.py) for one
dequeued document id: every raise inside the `try` block lands in the
`except (ExtractionError, LLMError, Exception)` clause, which appends a
`failed` status event carrying `str(e)` to the database state as of the
raise point. -/
def worker_process (db : DBState) (document_id : String) (env : JobEnv) :
    DBState :=
  match get_document_by_id db document_id none with
  | none =>
      insert_status_event db document_id "failed" (some failedMeta)
        (some "Document metadata not found in database.") env.eid_failed
  | some _ =>
      let db1 := insert_status_event db document_id "processing"
        (some extractionStartedMeta) none env.eid_processing
      match env.extract with
      | .error m =>
          insert_status_event db1 document_id "failed" (some failedMeta)
            (some m) env.eid_failed
      | .ok _ =>
          let db2 := insert_status_event db1 document_id "analyzing"
            (some analysisStartedMeta) none env.eid_analyzing
          match env.analyze with
          | .error m =>
              insert_status_event db2 document_id "failed" (some failedMeta)
                (some m) env.eid_failed
          | .ok a =>
              let db3 := insert_analysis_result db2 document_id a.summary
                (json_dumps_list a.key_topics) a.sentiment
                (json_dumps_list a.actionable_items) (some a.raw_model_output)
              insert_status_event db3 document_id "completed"
                (some completedMeta) none env.eid_completed

/-- One iteration of the `while True` loop of `background_worker`:
dequeue (blocking — with an empty queue the loop is suspended and nothing
changes), set `current_document_id`, run the job body, and in the
`finally` clause clear the marker before the next dequeue. -/
def worker_iteration (db : DBState) (ws : WorkerState) (env : JobEnv) :
    DBState × WorkerState :=
  match ws.queue with
  | [] => (db, ws)
  | document_id :: rest =>
      (worker_process db document_id env,
       { queue := rest, current_document_id := none })

/-!  LLM analysis (`app/services/llm.py`).  String helpers are written on
character lists (structural recursion, evaluable in the kernel), with the
same behaviour as the Python string methods they stand for. -/

/-- Split a character list at each character satisfying `p` (the
separator is dropped; adjacent separators yield empty parts). -/
def splitChars (p : Char → Bool) : List Char → List (List Char)
  | [] => [[]]
  | c :: cs =>
      let r := splitChars p cs
      if p c then [] :: r
      else
        match r with
        | [] => [[c]]
        | h :: t => (c :: h) :: t

/-- Python `str.strip()`: drop leading and trailing whitespace. -/
def stripChars (l : List Char) : List Char :=
  ((l.dropWhile Char.isWhitespace).reverse.dropWhile Char.isWhitespace).reverse

def strip (s : String) : String := String.mk (stripChars s.toList)

/-- Python `str.lower()` (ASCII behaviour). -/
def lowerStr (s : String) : String := String.mk (s.toList.map Char.toLower)

/-- `_count_sentences` (llm.py): `re.split(r"[.!?]+", text)` and count the
parts whose `strip()` is non-empty.  Splitting at each separator char
instead of at runs only adds empty parts, which the non-blank filter
drops, so the count is the same; a part has non-empty strip exactly when
it contains a non-whitespace character. -/
def count_sentences (text : String) : Nat :=
  ((splitChars (fun c => c == '.' || c == '!' || c == '?') text.toList).filter
    fun part => part.any fun c => !c.isWhitespace).length

/-- `_normalize_string_list` (llm.py): a JSON array normalizes to its
stripped non-empty strings; anything that is not a list (including an
absent field, `none` here) normalizes to `[]`. -/
def normalize_string_list : Option (List String) → List String
  | some value => (value.map strip).filter fun s => ¬ s = ""
  | none => []

/-- What one call to the OpenAI chat-completions endpoint produced, before
validation. -/
inductive UpstreamResult where
  /-- The call raised before yielding parsed JSON: an API / transport /
  timeout / rate-limit error, a request failure, empty completion content
  or `json.loads` failure.  All of these raise `LLMError`; `msg` is the
  formatted message (`"OpenAI API error: …"`, `"OpenAI request failed: …"`
  or `"Failed to parse OpenAI response: …"`). -/
  | failure (msg : String)
  /-- `json.loads` succeeded.  `summary` is `none` when the field is
  absent (`parsed.get("summary", "")` then yields `""`); `sentiment` is
  `none` when absent; `key_topics` / `actionable_items` are `none` when
  absent or not a JSON array. -/
  | json (summary : Option String) (sentiment : Option String)
      (key_topics : Option (List String))
      (actionable_items : Option (List String)) (raw : String)

/-- `_call_openai_chat_completions` (llm.py) after the transport phase:
validate the summary sentence count (3–5), then the sentiment value, and
build the result dict with normalized lists.  Every failure raises
`LLMError`, modelled as `.error`. -/
def call_openai_chat_completions : UpstreamResult → Except String Analysis
  | .failure msg => .error msg
  | .json summary sentiment key_topics actionable_items raw =>
      let s := strip (summary.getD "")
      let n := count_sentences s
      if n < 3 ∨ 5 < n then
        .error "LLM summary is not within 3-5 sentences."
      else
        match sentiment with
        | some sv =>
            if sv = "positive" ∨ sv = "negative" ∨ sv = "neutral" ∨
                sv = "mixed" then
              .ok ⟨s, normalize_string_list key_topics, sv,
                   normalize_string_list actionable_items, raw⟩
            else .error "LLM returned invalid sentiment value."
        | none => .error "LLM returned invalid sentiment value."

/-- The `for attempt in range(attempts)` loop of
`analyze_document_with_retry` (llm.py), with `remaining` iterations left
and `resps attempt` the upstream behaviour of the attempt with that
index.  When the loop is exhausted it raises
`LLMError(f"Analysis failed after retry: {last_error}")`. -/
def retry_loop (resps : Nat → UpstreamResult) :
    Nat → Nat → Option String → Except String Analysis
  | _, 0, last_error =>
      .error ("Analysis failed after retry: " ++ last_error.getD "None")
  | attempt, remaining + 1, _ =>
      match call_openai_chat_completions (resps attempt) with
      | .ok a => .ok a
      | .error m => retry_loop resps (attempt + 1) remaining (some m)

/-- `analyze_document_with_retry` (llm.py): `attempts = max_retries + 1`
calls at most; the worker calls it with `max_retries = 1`. -/
def analyze_document_with_retry (resps : Nat → UpstreamResult)
    (max_retries : Nat := 1) : Except String Analysis :=
  retry_loop resps 0 (max_retries + 1) none

/-- Number of calls to `_call_openai_chat_completions` the loop performs
(same recursion structure as `retry_loop`). -/
def retry_calls (resps : Nat → UpstreamResult) : Nat → Nat → Nat
  | _, 0 => 0
  | attempt, remaining + 1 =>
      match call_openai_chat_completions (resps attempt) with
      | .ok _ => 1
      | .error _ => 1 + retry_calls resps (attempt + 1) remaining

def analyze_calls (resps : Nat → UpstreamResult)
    (max_retries : Nat := 1) : Nat :=
  retry_calls resps 0 (max_retries + 1)

/-- Number of `time.sleep(1)` fixed delays the loop performs: one after a
failed attempt that is not the last (`attempt < attempts - 1`). -/
def retry_sleeps (resps : Nat → UpstreamResult) : Nat → Nat → Nat
  | _, 0 => 0
  | attempt, remaining + 1 =>
      match call_openai_chat_completions (resps attempt) with
      | .ok _ => 0
      | .error _ =>
          (if remaining = 0 then 0 else 1) + retry_sleeps resps (attempt + 1) remaining

def analyze_sleeps (resps : Nat → UpstreamResult)
    (max_retries : Nat := 1) : Nat :=
  retry_sleeps resps 0 (max_retries + 1)

/-!  Route handlers (`app/routes/documents.py`). -/

/-- Outcome of the DELETE `/documents/{id}` handler: HTTP 409 conflict,
HTTP 404 not found, or the success body carrying the document id. -/
inductive DeleteResult where
  | conflict
  | notFound
  | done (document_id : String)
deriving Repr, DecidableEq

/-- `delete_document` (documents.py): reject with 409 while the id is
currently processing; otherwise first remove the id from the queue, then
delete the owner-scoped database rows, answering 404 when that lookup
finds nothing. -/
def delete_document (db : DBState) (ws : WorkerState)
    (id current_user : String) : DeleteResult × DBState × WorkerState :=
  if is_currently_processing ws id then (.conflict, db, ws)
  else
    let ws' := (remove_document_from_queue ws id).1
    match delete_document_and_related db id (some current_user) with
    | (none, db') => (.notFound, db', ws')
    | (some _, db') => (.done id, db', ws')

/-- One input file of the multipart upload: `file.filename` and
`file.content_type` as the client sent them (possibly absent), and the
byte length of `await file.read()`. -/
structure UploadFileIn where
  filename : Option String
  content_type : Option String
  size_bytes : Nat
deriving Repr, DecidableEq

def MAX_FILE_SIZE_BYTES : Nat := 10 * 1024 * 1024

def UPLOADS_DIR : String := "data/uploads"

/-- `os.path.basename` for POSIX paths: the part after the last slash. -/
def basename (p : String) : String :=
  String.mk ((p.toList.reverse.takeWhile fun c => ¬ c = '/').reverse)

/-- The suffix starting at the last dot of the list, if any. -/
def extFrom : List Char → Option (List Char)
  | [] => none
  | c :: cs =>
      match extFrom cs with
      | some e => some e
      | none => if c = '.' then some ('.' :: cs) else none

/-- `os.path.splitext(name)[1]`: the extension starts at the last dot,
but leading dots of the name never begin an extension. -/
def splitext_ext (name : String) : String :=
  String.mk ((extFrom (name.toList.dropWhile fun c => c = '.')).getD [])

/-- One entry of the `uploaded_documents` list in the upload response. -/
structure UploadedDoc where
  document_id : String
  filename : String
  size_bytes : Nat
  content_type : Option String
  status : String
  stored_path : String
deriving Repr, DecidableEq

/-- One entry of the `errors` list in the upload response. -/
structure UploadError where
  filename : Option String
  error : String
deriving Repr, DecidableEq

/-- The success body of the upload endpoint. -/
structure UploadSuccess where
  uploaded_count : Nat
  uploaded_documents : List UploadedDoc
  failed_count : Nat
  errors : List UploadError
deriving Repr, DecidableEq

/-- The per-file validation chain of `upload_document` (documents.py),
in source order: missing filename, disallowed extension, disallowed
content type (skipped for a falsy — absent or empty — content type),
size cap.  A valid file is stored under `UPLOADS_DIR/document_id/`,
registered as `pending`, and enqueued.  `document_id` stands for the
fresh `uuid.uuid4()` string. -/
def process_upload_file (db : DBState) (q : List String)
    (current_user document_id : String) (file : UploadFileIn) :
    (UploadedDoc ⊕ UploadError) × DBState × List String :=
  let filename := basename (file.filename.getD "")
  if filename = "" then
    (.inr ⟨file.filename, "Filename is missing or invalid."⟩, db, q)
  else
    let ext := lowerStr (splitext_ext filename)
    if ¬ (ext = ".pdf" ∨ ext = ".txt") then
      (.inr ⟨some filename,
             "Invalid file type. Only .pdf and .txt files are allowed."⟩,
       db, q)
    else if (match file.content_type with
             | some ct => !(ct == "") && !(ct == "application/pdf" || ct == "text/plain")
             | none => false) then
      (.inr ⟨some filename,
             "Invalid content type. Expected application/pdf or text/plain."⟩,
       db, q)
    else if MAX_FILE_SIZE_BYTES < file.size_bytes then
      (.inr ⟨some filename, "File exceeds max size of 10MB."⟩, db, q)
    else
      let path := UPLOADS_DIR ++ "/" ++ document_id ++ "/" ++ filename
      let db' := insert_document_metadata db document_id current_user
        filename path file.content_type file.size_bytes "pending" none
      (.inl ⟨document_id, filename, file.size_bytes, file.content_type,
             "pending", path⟩,
       db', q ++ [document_id])

/-- The `for file in files` loop of `upload_document`: process the files
in order, accumulating uploads and errors; `ids i` is the uuid assigned
to the i-th file. -/
def upload_loop (current_user : String) (ids : Nat → String) :
    List UploadFileIn → Nat → DBState → List String →
    List UploadedDoc × List UploadError × DBState × List String
  | [], _, db, q => ([], [], db, q)
  | f :: fs, i, db, q =>
      match process_upload_file db q current_user (ids i) f with
      | (.inl d, db', q') =>
          let r := upload_loop current_user ids fs (i + 1) db' q'
          (d :: r.1, r.2.1, r.2.2)
      | (.inr e, db', q') =>
          let r := upload_loop current_user ids fs (i + 1) db' q'
          (r.1, e :: r.2.1, r.2.2)

/-- `upload_document` (documents.py).  An empty batch or a batch with no
valid file raises HTTP 400 (`.error` carries the detail message and the
per-file errors — the 400 body has no `uploaded_count` field); otherwise
the success body reports the aggregate counts. -/
def upload_document (db : DBState) (q : List String) (current_user : String)
    (files : List UploadFileIn) (ids : Nat → String) :
    Except (String × List UploadError) UploadSuccess × DBState × List String :=
  if files.isEmpty then (.error ("No files provided.", []), db, q)
  else
    let r := upload_loop current_user ids files 0 db q
    if r.1.isEmpty then
      (.error ("No valid files were uploaded.", r.2.1), r.2.2.1, r.2.2.2)
    else
      (.ok ⟨r.1.length, r.1, r.2.1.length, r.2.1⟩, r.2.2.1, r.2.2.2)

/-!  The SSE poll loop (`event_generator` in documents.py). -/

/-- The emitted `status` event payload (timestamps are not modelled). -/
structure StreamStatusPayload where
  document_id : String
  status : String
  metadata : Option String
  error_message : Option String
  result : Option AnalysisRow
deriving Repr, DecidableEq

/-- One server-sent event: a `status` event or a `heartbeat`. -/
inductive StreamEmit where
  | status (p : StreamStatusPayload)
  | heartbeat
deriving Repr, DecidableEq

/-- Payload construction for one event row, with the analysis result
joined in at emission time when the status is `completed`. -/
def emit_payload (db : DBState) (current_user : String) (e : EventRow) :
    StreamStatusPayload :=
  { document_id := e.document_id, status := e.status,
    metadata := e.metadata, error_message := e.error_message,
    result := if e.status = "completed" then
        get_document_analysis_result db e.document_id (some current_user)
      else none }

/-- What one pass of the `while True` poll loop produced: the events sent
to the client, the cursor for the next pass, and whether the pass ended
in an `asyncio.sleep(1)` before the next poll. -/
structure PollStep where
  emitted : List StreamEmit
  new_cursor : Nat
  waited : Bool
deriving Repr, DecidableEq

/-- One pass of the poll loop of `event_generator` (documents.py): fetch
events after the cursor; with none, emit a heartbeat and sleep one
interval; with events, emit each in query order, set the cursor to the
last emitted event's rowid — and then also sleep one interval
(`await asyncio.sleep(1)` runs after the emission loop as well). -/
def stream_poll_once (db : DBState) (current_user : String)
    (last_rowid : Nat) : PollStep :=
  let new_events := get_status_events_after_rowid db last_rowid 200
    (some current_user)
  match new_events.getLast? with
  | none => ⟨[.heartbeat], last_rowid, true⟩
  | some last =>
      ⟨new_events.map fun e => .status (emit_payload db current_user e),
       last.row_num, true⟩

/-!  Reachable database states and the denormalized-status invariant. -/

/-- The most recently appended status event for a document id (the
status-event list is kept in insertion order). -/
def lastEventFor (events : List EventRow) (document_id : String) :
    Option EventRow :=
  (events.filter fun e => e.document_id = document_id).getLast?

/-- The spec §3 / §8 invariant: every document's `current_status` equals
the status of the most recently appended status event for its id; a
document with no events yet is `pending` (its registration status). -/
def statusInvariant (db : DBState) : Prop :=
  ∀ d ∈ db.documents,
    d.current_status =
      ((lastEventFor db.status_events d.document_id).map EventRow.status).getD
        "pending"

/-- One mutation of the persisted state, as the repository performs them:
registration at upload (with a fresh uuid, so the id matches no existing
document row and no existing event), a status-event append (the worker's
only status mutation path, any document id), the analysis upsert, and
document deletion. -/
inductive DBStep : DBState → DBState → Prop
  | register (db : DBState)
      (document_id owner_username original_filename stored_path : String)
      (content_type : Option String) (size_bytes : Nat)
      (hdoc : ∀ d ∈ db.documents, d.document_id ≠ document_id)
      (hev : ∀ e ∈ db.status_events, e.document_id ≠ document_id) :
      DBStep db (insert_document_metadata db document_id owner_username
        original_filename stored_path content_type size_bytes "pending" none)
  | append (db : DBState) (document_id status : String)
      (metadata error_message : Option String) (event_id : String) :
      DBStep db (insert_status_event db document_id status metadata
        error_message event_id)
  | upsert (db : DBState) (document_id summary key_topics sentiment
      actionable_items : String) (raw_model_output : Option String) :
      DBStep db (insert_analysis_result db document_id summary key_topics
        sentiment actionable_items raw_model_output)
  | delete (db : DBState) (document_id : String)
      (owner_username : Option String) :
      DBStep db (delete_document_and_related db document_id owner_username).2

/-- Database states the repository can actually be in: reachable from the
freshly created empty tables by the mutations above. -/
inductive DBReachable : DBState → Prop
  | init : DBReachable emptyDB
  | step {db db' : DBState} :
      DBReachable db → DBStep db db' → DBReachable db'

theorem lastEventFor_append_self (es : List EventRow) (e : EventRow)
    (document_id : String) (h : e.document_id = document_id) :
    lastEventFor (es ++ [e]) document_id = some e := by
  simp [lastEventFor, List.filter_append, h]

theorem lastEventFor_append_other (es : List EventRow) (e : EventRow)
    (document_id : String) (h : ¬ e.document_id = document_id) :
    lastEventFor (es ++ [e]) document_id = lastEventFor es document_id := by
  simp [lastEventFor, List.filter_append, h]

theorem lastEventFor_of_absent (es : List EventRow) (document_id : String)
    (h : ∀ e ∈ es, e.document_id ≠ document_id) :
    lastEventFor es document_id = none := by
  have hnil : es.filter (fun e => e.document_id = document_id) = [] := by
    rw [List.filter_eq_nil_iff]
    intro e he
    simp [h e he]
  simp [lastEventFor, hnil]

theorem filter_doc_filter_ne (es : List EventRow)
    (deleted_id document_id : String) (h : ¬ document_id = deleted_id) :
    (es.filter fun e => ¬ e.document_id = deleted_id).filter
        (fun e => e.document_id = document_id) =
      es.filter fun e => e.document_id = document_id := by
  induction es with
  | nil => rfl
  | cons e es ih =>
    rcases eq_or_ne e.document_id deleted_id with hq | hq
    · have hp : ¬ e.document_id = document_id := by
        rw [hq]; exact fun hc => h hc.symm
      rw [List.filter_cons_of_neg (by simp [hq]),
        List.filter_cons_of_neg (by simp [hp]), ih]
    · rw [List.filter_cons_of_pos (by simp [hq])]
      rcases eq_or_ne e.document_id document_id with hp | hp
      · rw [List.filter_cons_of_pos (by simp [hp]),
          List.filter_cons_of_pos (by simp [hp]), ih]
      · rw [List.filter_cons_of_neg (by simp [hp]),
          List.filter_cons_of_neg (by simp [hp]), ih]

theorem lastEventFor_filter_ne (es : List EventRow)
    (deleted_id document_id : String) (h : ¬ document_id = deleted_id) :
    lastEventFor (es.filter fun e => ¬ e.document_id = deleted_id)
      document_id = lastEventFor es document_id := by
  unfold lastEventFor
  rw [filter_doc_filter_ne es deleted_id document_id h]

theorem insert_analysis_result_documents (db : DBState)
    (document_id summary key_topics sentiment actionable_items : String)
    (raw_model_output : Option String) :
    (insert_analysis_result db document_id summary key_topics sentiment
      actionable_items raw_model_output).documents = db.documents := by
  unfold insert_analysis_result
  split <;> rfl

theorem insert_analysis_result_status_events (db : DBState)
    (document_id summary key_topics sentiment actionable_items : String)
    (raw_model_output : Option String) :
    (insert_analysis_result db document_id summary key_topics sentiment
      actionable_items raw_model_output).status_events =
      db.status_events := by
  unfold insert_analysis_result
  split <;> rfl

/-- The denormalized-status invariant is preserved by every mutation the
repository performs. -/
theorem statusInvariant_preserved {db db' : DBState} (hs : DBStep db db')
    (h : statusInvariant db) : statusInvariant db' := by
  cases hs with
  | register document_id owner_username original_filename stored_path
      content_type size_bytes hdoc hev =>
    intro d hd
    simp only [insert_document_metadata, List.mem_append,
      List.mem_singleton] at hd
    rcases hd with hd | rfl
    · exact h d hd
    · simp [insert_document_metadata, lastEventFor_of_absent _ _ hev]
  | append document_id status metadata error_message event_id =>
    intro d hd
    simp only [insert_status_event, List.mem_map] at hd
    obtain ⟨d0, hd0, rfl⟩ := hd
    simp only [insert_status_event]
    by_cases hid : d0.document_id = document_id
    · have hsome := lastEventFor_append_self db.status_events
        ⟨nextRowid db.status_events, event_id, document_id, status, metadata,
          error_message⟩ document_id rfl
      simp [hid, hsome]
    · have hother := lastEventFor_append_other db.status_events
        ⟨nextRowid db.status_events, event_id, document_id, status, metadata,
          error_message⟩ d0.document_id (fun hc => hid hc.symm)
      simp only [if_neg hid, hother]
      exact h d0 hd0
  | upsert document_id summary key_topics sentiment actionable_items
      raw_model_output =>
    intro d hd
    rw [insert_analysis_result_documents] at hd
    rw [insert_analysis_result_status_events]
    exact h d hd
  | delete document_id owner_username =>
    intro d hd
    simp only [delete_document_and_related] at hd ⊢
    cases howner : get_document_by_id db document_id owner_username with
    | none =>
      rw [howner] at hd
      exact h d hd
    | some doc =>
      rw [howner] at hd
      have hd' : d ∈ db.documents.filter
          (fun x => ¬ x.document_id = document_id) := hd
      simp only [List.mem_filter, decide_eq_true_eq] at hd'
      obtain ⟨hmem, hne⟩ := hd'
      have hne' : ¬ d.document_id = document_id := by simpa using hne
      show d.current_status =
        ((lastEventFor
            (db.status_events.filter fun e => ¬ e.document_id = document_id)
            d.document_id).map EventRow.status).getD "pending"
      rw [lastEventFor_filter_ne _ _ _ hne']
      exact h d hmem

/-- C1: For every reachable database state — hence for every document at
every point in time — the document's `current_status` equals the status
of the most recently appended status event for its id, the event insert
and the document update being the single atomic `insert_status_event`
unit; in particular a freshly registered document (created `pending`)
satisfies the invariant before the worker has appended any event for it. -/
theorem C1_current_status_matches_latest_event (db : DBState)
    (h : DBReachable db) : statusInvariant db := by
  induction h with
  | init => intro d hd; simp [emptyDB] at hd
  | step _ hs ih => exact statusInvariant_preserved hs ih

/-- Witness for C1 at a concrete reachable state: register one document
(fresh id, `pending`, no events), then append a `processing` event. -/
theorem C1_witness :
    statusInvariant (insert_status_event
      (insert_document_metadata emptyDB "d1" "user1" "a.txt"
        "data/uploads/d1/a.txt" (some "text/plain") 11 "pending" none)
      "d1" "processing" (some extractionStartedMeta) none "e1") :=
  C1_current_status_matches_latest_event _
    (DBReachable.step
      (DBReachable.step DBReachable.init
        (DBStep.register emptyDB "d1" "user1" "a.txt"
          "data/uploads/d1/a.txt" (some "text/plain") 11
          (by simp [emptyDB]) (by simp [emptyDB])))
      (DBStep.append _ "d1" "processing" (some extractionStartedMeta) none
        "e1"))

/-!  C2: rowid reuse after deleting the highest-numbered events.  Two
documents are registered, each gets one event (rowids 1 and 2), document
B — owner of rowid 2 — is deleted, and a further event is appended. -/

def c2_db1 : DBState :=
  insert_document_metadata emptyDB "A" "user1" "a.txt"
    "data/uploads/A/a.txt" (some "text/plain") 11 "pending" none

def c2_db2 : DBState :=
  insert_document_metadata c2_db1 "B" "user1" "b.txt"
    "data/uploads/B/b.txt" (some "text/plain") 11 "pending" none

def c2_db3 : DBState :=
  insert_status_event c2_db2 "A" "processing" (some extractionStartedMeta)
    none "eA1"

def c2_db4 : DBState :=
  insert_status_event c2_db3 "B" "processing" (some extractionStartedMeta)
    none "eB1"

def c2_db5 : DBState := (delete_document_and_related c2_db4 "B"
  (some "user1")).2

def c2_db6 : DBState :=
  insert_status_event c2_db5 "A" "failed" (some failedMeta) (some "boom")
    "eA2"

/-- C2: the claim fails on the code.  The log assigned rowids 1 and 2;
after the document owning rowid 2 is deleted, the next append is assigned
rowid 2 again (SQLite reuses the rowid of a deleted maximum row), so the
later append's sequence number is not strictly greater than every number
assigned before, and a streaming client whose cursor is 2 never receives
the new `failed` event. -/
theorem C2_rowid_reused_after_delete :
    c2_db4.status_events.map EventRow.row_num = [1, 2] ∧
    (c2_db6.status_events.getLast?).map EventRow.row_num = some 2 ∧
    (c2_db6.status_events.getLast?).map EventRow.status = some "failed" ∧
    get_status_events_after_rowid c2_db6 2 200 none = [] := by
  refine ⟨rfl, rfl, rfl, rfl⟩

/-- The event appended by `insert_status_event` is the last element of
the status-event list and carries the given document id and status. -/
theorem insert_status_event_getLast (db : DBState)
    (document_id status : String) (metadata error_message : Option String)
    (event_id : String) :
    ∃ e, (insert_status_event db document_id status metadata error_message
        event_id).status_events.getLast? = some e ∧
      e.document_id = document_id ∧ e.status = status := by
  refine ⟨⟨nextRowid db.status_events, event_id, document_id, status,
    metadata, error_message⟩, ?_, rfl, rfl⟩
  simp [insert_status_event]

/-- C3: one iteration of the worker loop never dies: for every database
state and every job outcome — missing document row, extraction failure,
analysis failure, each standing (via the catch-all `except` clause) for
any exception raised in that step — the iteration is a total function
whose final worker state has the in-flight marker cleared and the queue
advanced; at most one id is ever marked in-flight; and every failing job
is converted into a `failed` status event for the dequeued id. -/
theorem C3_worker_loop_survives_failures (db : DBState) (ws : WorkerState)
    (env : JobEnv) (document_id : String) (rest : List String)
    (hq : ws.queue = document_id :: rest) :
    ((worker_iteration db ws env).2.current_document_id = none) ∧
    ((worker_iteration db ws env).2.queue = rest) ∧
    (∀ w : WorkerState, ∀ a b : String,
      is_currently_processing w a → is_currently_processing w b → a = b) ∧
    ((get_document_by_id db document_id none = none ∨
        (∃ m, env.extract = .error m) ∨ (∃ m, env.analyze = .error m)) →
      ∃ e, (worker_iteration db ws env).1.status_events.getLast? = some e ∧
        e.document_id = document_id ∧ e.status = "failed") := by
  refine ⟨by simp [worker_iteration, hq], by simp [worker_iteration, hq],
    ?_, ?_⟩
  · intro w a b ha hb
    simp only [is_currently_processing, decide_eq_true_eq] at ha hb
    exact Option.some.inj (ha.symm.trans hb)
  · intro hfail
    simp only [worker_iteration, hq]
    unfold worker_process
    cases hdoc : get_document_by_id db document_id none with
    | none =>
      exact insert_status_event_getLast _ _ _ _ _ _
    | some doc =>
      cases hext : env.extract with
      | error m => exact insert_status_event_getLast _ _ _ _ _ _
      | ok txt =>
        cases hana : env.analyze with
        | error m => exact insert_status_event_getLast _ _ _ _ _ _
        | ok a =>
          rcases hfail with hmiss | ⟨m, hm⟩ | ⟨m, hm⟩
          · rw [hdoc] at hmiss; cases hmiss
          · rw [hext] at hm; cases hm
          · rw [hana] at hm; cases hm

/-- Witness for C3: a job whose document row is missing (and whose
collaborators would fail too) clears the marker, advances the queue, and
leaves a `failed` event for the dequeued id. -/
theorem C3_witness :
    ((worker_iteration emptyDB ⟨["X"], none⟩
        ⟨Except.error "boom", Except.error "boom", "", "", "", ""⟩).2.current_document_id
        = none) ∧
    ((worker_iteration emptyDB ⟨["X"], none⟩
        ⟨Except.error "boom", Except.error "boom", "", "", "", ""⟩).2.queue
        = []) ∧
    (∃ e, (worker_iteration emptyDB ⟨["X"], none⟩
        ⟨Except.error "boom", Except.error "boom", "", "", "", ""⟩).1.status_events.getLast?
        = some e ∧ e.document_id = "X" ∧ e.status = "failed") := by
  obtain ⟨h1, h2, _, h4⟩ := C3_worker_loop_survives_failures emptyDB
    ⟨["X"], none⟩ ⟨Except.error "boom", Except.error "boom", "", "", "", ""⟩
    "X" [] rfl
  exact ⟨h1, h2, h4 (Or.inl rfl)⟩

/-- The retry loop never calls the collaborator more often than the
number of loop iterations. -/
theorem retry_calls_le (resps : Nat → UpstreamResult) :
    ∀ remaining attempt, retry_calls resps attempt remaining ≤ remaining := by
  intro remaining
  induction remaining with
  | zero => intro attempt; simp [retry_calls]
  | succ n ih =>
    intro attempt
    cases hc : call_openai_chat_completions (resps attempt) with
    | ok a => simp [retry_calls, hc]
    | error m =>
      have := ih (attempt + 1)
      simp only [retry_calls, hc]
      omega

/-- Like `insert_status_event_getLast`, also exposing the recorded error
message. -/
theorem insert_status_event_getLast_err (db : DBState)
    (document_id status : String) (metadata error_message : Option String)
    (event_id : String) :
    ∃ e, (insert_status_event db document_id status metadata error_message
        event_id).status_events.getLast? = some e ∧
      e.document_id = document_id ∧ e.status = status ∧
      e.error_message = error_message := by
  refine ⟨⟨nextRowid db.status_events, event_id, document_id, status,
    metadata, error_message⟩, ?_, rfl, rfl, rfl⟩
  simp [insert_status_event]

/-- C4: the analysis collaborator is invoked at most twice per job (the
worker calls `analyze_document_with_retry` with `max_retries = 1`);
result-validation failures are `.error` outcomes of
`call_openai_chat_completions` and hence consume the same two-attempt
budget; when both attempts fail (messages `m0` then `m1`) exactly two
calls and one fixed inter-attempt delay happen, the retry wrapper raises
the aggregated message, and the worker converts it into a `failed` status
event carrying that message, with no further attempts. -/
theorem C4_analysis_retry_budget (resps : Nat → UpstreamResult)
    (m0 m1 : String)
    (h0 : call_openai_chat_completions (resps 0) = Except.error m0)
    (h1 : call_openai_chat_completions (resps 1) = Except.error m1)
    (db : DBState) (ws : WorkerState) (env : JobEnv)
    (document_id txt : String) (rest : List String) (doc : DocRow)
    (hq : ws.queue = document_id :: rest)
    (hdoc : get_document_by_id db document_id none = some doc)
    (hext : env.extract = Except.ok txt)
    (hana : env.analyze = analyze_document_with_retry resps 1) :
    (∀ r : Nat → UpstreamResult, analyze_calls r 1 ≤ 2) ∧
    analyze_calls resps 1 = 2 ∧
    analyze_sleeps resps 1 = 1 ∧
    analyze_document_with_retry resps 1 =
      Except.error ("Analysis failed after retry: " ++ m1) ∧
    (∃ e, (worker_iteration db ws env).1.status_events.getLast? = some e ∧
      e.document_id = document_id ∧ e.status = "failed" ∧
      e.error_message = some ("Analysis failed after retry: " ++ m1)) := by
  have hagg : analyze_document_with_retry resps 1 =
      Except.error ("Analysis failed after retry: " ++ m1) := by
    simp [analyze_document_with_retry, retry_loop, h0, h1]
  refine ⟨fun r => retry_calls_le r 2 0, ?_, ?_, hagg, ?_⟩
  · simp [analyze_calls, retry_calls, h0, h1]
  · simp [analyze_sleeps, retry_sleeps, h0, h1]
  · simp only [worker_iteration, hq]
    unfold worker_process
    simp only [hdoc, hext]
    rw [hana, hagg]
    exact insert_status_event_getLast_err _ _ _ _ _ _

/-- Witness for C4: attempt 0 produces a result-validation failure (an
out-of-range sentiment value), attempt 1 a transport failure; the budget
is consumed and the worker records the aggregated failure. -/
theorem C4_witness :
    analyze_calls
      (fun i => if i = 0 then
        UpstreamResult.json (some "One. Two. Three.") (some "angry") none
          none "raw0"
      else UpstreamResult.failure "OpenAI API error: timeout") 1 = 2 ∧
    analyze_document_with_retry
      (fun i => if i = 0 then
        UpstreamResult.json (some "One. Two. Three.") (some "angry") none
          none "raw0"
      else UpstreamResult.failure "OpenAI API error: timeout") 1 =
      Except.error
        ("Analysis failed after retry: " ++ "OpenAI API error: timeout") ∧
    (∃ e, (worker_iteration
        ⟨[⟨"d1", "user1", "a.txt", "data/uploads/d1/a.txt",
            some "text/plain", 11, "pending", none⟩], [], []⟩
        ⟨["d1"], none⟩
        ⟨Except.ok "hello world",
          analyze_document_with_retry
            (fun i => if i = 0 then
              UpstreamResult.json (some "One. Two. Three.") (some "angry")
                none none "raw0"
            else UpstreamResult.failure "OpenAI API error: timeout") 1,
          "", "", "", ""⟩).1.status_events.getLast? = some e ∧
      e.document_id = "d1" ∧ e.status = "failed" ∧
      e.error_message =
        some ("Analysis failed after retry: " ++
          "OpenAI API error: timeout")) := by
  obtain ⟨_, h2, _, h4, h5⟩ := C4_analysis_retry_budget
    (fun i => if i = 0 then
      UpstreamResult.json (some "One. Two. Three.") (some "angry") none
        none "raw0"
    else UpstreamResult.failure "OpenAI API error: timeout")
    "LLM returned invalid sentiment value." "OpenAI API error: timeout"
    rfl rfl
    ⟨[⟨"d1", "user1", "a.txt", "data/uploads/d1/a.txt", some "text/plain",
        11, "pending", none⟩], [], []⟩
    ⟨["d1"], none⟩
    ⟨Except.ok "hello world",
      analyze_document_with_retry
        (fun i => if i = 0 then
          UpstreamResult.json (some "One. Two. Three.") (some "angry") none
            none "raw0"
        else UpstreamResult.failure "OpenAI API error: timeout") 1,
      "", "", "", ""⟩
    "d1" "hello world" []
    ⟨"d1", "user1", "a.txt", "data/uploads/d1/a.txt", some "text/plain",
      11, "pending", none⟩
    rfl rfl rfl rfl
  exact ⟨h2, h4, h5⟩

/-- C5: for a job whose extraction collaborator fails, starting from a
freshly registered document (status `pending`, no events yet): the events
recorded for the document are exactly `processing` then `failed` — the
spec writes this status path, starting from the registration status, as
`pending→processing→failed` — the `analyzing` event is never emitted,
the failure carries the extraction error message, and the analysis-result
store is untouched (no AnalysisResult row is created). -/
theorem C5_extraction_failure_path (db : DBState) (ws : WorkerState)
    (env : JobEnv) (document_id msg : String) (rest : List String)
    (doc : DocRow)
    (hq : ws.queue = document_id :: rest)
    (hdoc : get_document_by_id db document_id none = some doc)
    (hpending : doc.current_status = "pending")
    (hnoev : ∀ e ∈ db.status_events, e.document_id ≠ document_id)
    (hext : env.extract = Except.error msg) :
    (((worker_iteration db ws env).1.status_events.filter
        fun e => e.document_id = document_id).map EventRow.status =
      ["processing", "failed"]) ∧
    (doc.current_status ::
        ((worker_iteration db ws env).1.status_events.filter
          fun e => e.document_id = document_id).map EventRow.status =
      ["pending", "processing", "failed"]) ∧
    ("analyzing" ∉ ((worker_iteration db ws env).1.status_events.filter
        fun e => e.document_id = document_id).map EventRow.status) ∧
    (worker_iteration db ws env).1.analysis_results =
      db.analysis_results ∧
    (∃ e, (worker_iteration db ws env).1.status_events.getLast? = some e ∧
      e.status = "failed" ∧ e.error_message = some msg) := by
  have hnil : db.status_events.filter
      (fun e => e.document_id = document_id) = [] := by
    rw [List.filter_eq_nil_iff]
    intro e he
    simp [hnoev e he]
  have hdb' : (worker_iteration db ws env).1 =
      insert_status_event
        (insert_status_event db document_id "processing"
          (some extractionStartedMeta) none env.eid_processing)
        document_id "failed" (some failedMeta) (some msg)
        env.eid_failed := by
    simp only [worker_iteration, hq]
    unfold worker_process
    simp only [hdoc, hext]
  rw [hdb']
  have h1 : (((insert_status_event
      (insert_status_event db document_id "processing"
        (some extractionStartedMeta) none env.eid_processing)
      document_id "failed" (some failedMeta) (some msg)
      env.eid_failed).status_events.filter
        fun e => e.document_id = document_id).map EventRow.status) =
      ["processing", "failed"] := by
    simp [insert_status_event, List.filter_append, hnil]
  refine ⟨h1, ?_, ?_, rfl, ?_⟩
  · rw [h1, hpending]
  · rw [h1]
    decide
  · obtain ⟨e, hel, _, hst, herr⟩ := insert_status_event_getLast_err
      (insert_status_event db document_id "processing"
        (some extractionStartedMeta) none env.eid_processing)
      document_id "failed" (some failedMeta) (some msg) env.eid_failed
    exact ⟨e, hel, hst, herr⟩

/-- Witness for C5: a registered pending document whose extraction fails
with "Stored file path is missing or file does not exist.". -/
theorem C5_witness :
    (((worker_iteration
        ⟨[⟨"d1", "user1", "a.txt", "data/uploads/d1/a.txt",
            some "text/plain", 11, "pending", none⟩], [], []⟩
        ⟨["d1"], none⟩
        ⟨Except.error "Stored file path is missing or file does not exist.",
          Except.error "unused", "", "", "", ""⟩).1.status_events.filter
        fun e => e.document_id = "d1").map EventRow.status =
      ["processing", "failed"]) ∧
    ((worker_iteration
        ⟨[⟨"d1", "user1", "a.txt", "data/uploads/d1/a.txt",
            some "text/plain", 11, "pending", none⟩], [], []⟩
        ⟨["d1"], none⟩
        ⟨Except.error "Stored file path is missing or file does not exist.",
          Except.error "unused", "", "", "", ""⟩).1.analysis_results = []) := by
  obtain ⟨h1, _, _, h4, _⟩ := C5_extraction_failure_path
    ⟨[⟨"d1", "user1", "a.txt", "data/uploads/d1/a.txt", some "text/plain",
        11, "pending", none⟩], [], []⟩
    ⟨["d1"], none⟩
    ⟨Except.error "Stored file path is missing or file does not exist.",
      Except.error "unused", "", "", "", ""⟩
    "d1" "Stored file path is missing or file does not exist." []
    ⟨"d1", "user1", "a.txt", "data/uploads/d1/a.txt", some "text/plain",
      11, "pending", none⟩
    rfl rfl rfl (by simp) rfl
  exact ⟨h1, h4⟩

/-- C6: a delete request for the id currently marked as processing is
answered with the conflict response and mutates nothing: database state
(documents, status events, analysis results) and worker state are
returned unchanged. -/
theorem C6_delete_conflict_while_processing (db : DBState)
    (ws : WorkerState) (id current_user : String)
    (h : ws.current_document_id = some id) :
    delete_document db ws id current_user =
      (DeleteResult.conflict, db, ws) := by
  simp [delete_document, is_currently_processing, h]

/-- Witness for C6 at a concrete in-flight state. -/
theorem C6_witness :
    delete_document c2_db3 ⟨[], some "A"⟩ "A" "user1" =
      (DeleteResult.conflict, c2_db3, ⟨[], some "A"⟩) :=
  C6_delete_conflict_while_processing c2_db3 ⟨[], some "A"⟩ "A" "user1" rfl

/-!  C7: a not-found delete and the job queue. -/

def c7_db : DBState :=
  insert_document_metadata emptyDB "X" "alice" "x.txt"
    "data/uploads/X/x.txt" (some "text/plain") 5 "pending" none

def c7_ws : WorkerState := ⟨["X"], none⟩

/-- C7 fails on the code: a delete issued by `bob` for document `X`
owned by `alice` while `X` still sits in the queue is answered 404, yet
the Job Queue is not identical before and after — the queue entry is
removed before the existence/ownership check. -/
theorem C7_counterexample :
    (delete_document c7_db c7_ws "X" "bob").1 = DeleteResult.notFound ∧
    c7_ws.queue = ["X"] ∧
    (delete_document c7_db c7_ws "X" "bob").2.2.queue = [] := by
  refine ⟨rfl, rfl, rfl⟩

/-- C7 as amended: a delete for an id that is absent or not owned by the
caller (and not currently processing) yields the not-found response and
leaves the Document Store, Status Event Log and Analysis Result Store
unchanged and the in-flight marker untouched; the Job Queue, however, is
mutated first — the id's first occurrence, if any, is removed from the
queue before the existence/ownership check. -/
theorem C7_notfound_delete_effects (db : DBState) (ws : WorkerState)
    (id current_user : String)
    (hnp : ¬ ws.current_document_id = some id)
    (habsent : get_document_by_id db id (some current_user) = none) :
    (delete_document db ws id current_user).1 = DeleteResult.notFound ∧
    (delete_document db ws id current_user).2.1 = db ∧
    (delete_document db ws id current_user).2.2.queue =
      (removeFirst ws.queue id).1 ∧
    (delete_document db ws id current_user).2.2.current_document_id =
      ws.current_document_id := by
  have hb : is_currently_processing ws id = false := by
    simp [is_currently_processing, hnp]
  simp [delete_document, hb, delete_document_and_related, habsent,
    remove_document_from_queue]

/-- Witness for the amended C7 at the counterexample state. -/
theorem C7_amended_witness :
    (delete_document c7_db c7_ws "X" "bob").1 = DeleteResult.notFound ∧
    (delete_document c7_db c7_ws "X" "bob").2.1 = c7_db ∧
    (delete_document c7_db c7_ws "X" "bob").2.2.queue =
      (removeFirst c7_ws.queue "X").1 ∧
    (delete_document c7_db c7_ws "X" "bob").2.2.current_document_id =
      c7_ws.current_document_id :=
  C7_notfound_delete_effects c7_db c7_ws "X" "bob" (by simp [c7_ws]) rfl

/-- C10: when the worker dequeues a document id for which no document row
exists, it still appends a `failed` status event carrying that id — so
the status-event log can contain events whose document id matches no
document row (the worker adds no document row either). -/
theorem C10_orphan_failed_event (db : DBState) (ws : WorkerState)
    (env : JobEnv) (document_id : String) (rest : List String)
    (hq : ws.queue = document_id :: rest)
    (hmiss : get_document_by_id db document_id none = none) :
    (∃ e, (worker_iteration db ws env).1.status_events.getLast? = some e ∧
      e.document_id = document_id ∧ e.status = "failed" ∧
      e.error_message =
        some "Document metadata not found in database.") ∧
    (∀ d ∈ (worker_iteration db ws env).1.documents,
      d.document_id ≠ document_id) := by
  constructor
  · simp only [worker_iteration, hq]
    unfold worker_process
    simp only [hmiss]
    exact insert_status_event_getLast_err _ _ _ _ _ _
  · intro d hd
    simp only [worker_iteration, hq] at hd
    unfold worker_process at hd
    simp only [hmiss, insert_status_event, List.mem_map] at hd
    obtain ⟨d0, hd0, rfl⟩ := hd
    have hno : ¬ d0.document_id = document_id := by
      have hfind : db.documents.find?
          (fun d => d.document_id = document_id) = none := by
        simpa [get_document_by_id] using hmiss
      have := List.find?_eq_none.mp hfind d0 hd0
      simpa using this
    rw [if_neg hno]
    exact hno

/-- Witness for C10: the queue holds id "ghost" with an empty document
store; the failed event for "ghost" is appended and no document row with
that id exists. -/
theorem C10_witness :
    (∃ e, (worker_iteration emptyDB ⟨["ghost"], none⟩
        ⟨Except.ok "text", Except.error "unused", "", "", "", ""⟩).1.status_events.getLast?
        = some e ∧ e.document_id = "ghost" ∧ e.status = "failed" ∧
      e.error_message =
        some "Document metadata not found in database.") ∧
    (∀ d ∈ (worker_iteration emptyDB ⟨["ghost"], none⟩
        ⟨Except.ok "text", Except.error "unused", "", "", "", ""⟩).1.documents,
      d.document_id ≠ "ghost") :=
  C10_orphan_failed_event emptyDB ⟨["ghost"], none⟩
    ⟨Except.ok "text", Except.error "unused", "", "", "", ""⟩
    "ghost" [] rfl rfl

/-!  C8: ordering properties of the poll loop. -/

theorem insertByRowid_perm (e : EventRow) (l : List EventRow) :
    List.Perm (insertByRowid e l) (e :: l) := by
  induction l with
  | nil => exact List.Perm.refl _
  | cons x xs ih =>
    unfold insertByRowid
    split
    · exact List.Perm.refl _
    · exact List.Perm.trans (List.Perm.cons x ih) (List.Perm.swap e x xs)

theorem orderByRowidAsc_perm (l : List EventRow) :
    List.Perm (orderByRowidAsc l) l := by
  induction l with
  | nil => exact List.Perm.refl _
  | cons x xs ih =>
    exact List.Perm.trans (insertByRowid_perm x (orderByRowidAsc xs))
      (List.Perm.cons x ih)

theorem insertByRowid_pairwise (e : EventRow) (l : List EventRow)
    (h : l.Pairwise fun a b => a.row_num ≤ b.row_num) :
    (insertByRowid e l).Pairwise fun a b => a.row_num ≤ b.row_num := by
  induction l with
  | nil => simp [insertByRowid]
  | cons x xs ih =>
    rcases List.pairwise_cons.mp h with ⟨hx, hxs⟩
    unfold insertByRowid
    by_cases hle : e.row_num ≤ x.row_num
    · rw [if_pos hle]
      refine List.pairwise_cons.mpr ⟨?_, h⟩
      intro b hb
      rcases List.mem_cons.mp hb with rfl | hb
      · exact hle
      · exact le_trans hle (hx b hb)
    · rw [if_neg hle]
      refine List.pairwise_cons.mpr ⟨?_, ih hxs⟩
      intro b hb
      rcases List.mem_cons.mp ((insertByRowid_perm e xs).mem_iff.mp hb) with
        rfl | hb
      · exact Nat.le_of_not_le hle
      · exact hx b hb

theorem orderByRowidAsc_pairwise (l : List EventRow) :
    (orderByRowidAsc l).Pairwise fun a b => a.row_num ≤ b.row_num := by
  induction l with
  | nil => simp [orderByRowidAsc]
  | cons x xs ih => exact insertByRowid_pairwise x _ ih

/-- C8 fails on the code in its "continues without waiting" part: in
this state events newer than cursor 0 exist, they are emitted — and the
poll pass still ends in the fixed one-interval wait (the
`asyncio.sleep(1)` after the emission loop). -/
theorem C8_counterexample :
    get_status_events_after_rowid c2_db3 0 200 (some "user1") ≠ [] ∧
    (stream_poll_once c2_db3 "user1" 0).emitted ≠ [StreamEmit.heartbeat] ∧
    (stream_poll_once c2_db3 "user1" 0).waited = true := by
  exact ⟨by decide, by decide, rfl⟩

/-- C8 as amended: on every poll pass, with no events newer than the
cursor a heartbeat is emitted, the cursor is unchanged and the server
waits one interval; with newer events each is emitted in strictly
ascending sequence order (exactly the owner-visible events past the
cursor, up to the page limit), the cursor advances to the last emitted
event's sequence number — and the server waits the same fixed interval
before the next poll (it waits in both branches, not only after a
heartbeat).  Rowids in the log are assumed pairwise distinct, as for a
SQLite rowid table. -/
theorem C8_poll_step_behaviour (db : DBState) (current_user : String)
    (last_rowid : Nat)
    (hnodup : (db.status_events.map EventRow.row_num).Nodup) :
    (get_status_events_after_rowid db last_rowid 200 (some current_user) =
        [] →
      stream_poll_once db current_user last_rowid =
        ⟨[StreamEmit.heartbeat], last_rowid, true⟩) ∧
    (∀ e, (get_status_events_after_rowid db last_rowid 200
        (some current_user)).getLast? = some e →
      stream_poll_once db current_user last_rowid =
        ⟨(get_status_events_after_rowid db last_rowid 200
            (some current_user)).map
            (fun x => StreamEmit.status (emit_payload db current_user x)),
          e.row_num, true⟩) ∧
    ((get_status_events_after_rowid db last_rowid 200
        (some current_user)).map EventRow.row_num).Pairwise (· < ·) ∧
    (∀ e ∈ get_status_events_after_rowid db last_rowid 200
        (some current_user),
      last_rowid < e.row_num ∧ eventVisibleTo db current_user e = true) ∧
    ((db.status_events.filter fun e =>
        last_rowid < e.row_num ∧ eventVisibleTo db current_user e).length ≤
        200 →
      ∀ e ∈ db.status_events, last_rowid < e.row_num →
        eventVisibleTo db current_user e = true →
        e ∈ get_status_events_after_rowid db last_rowid 200
          (some current_user)) := by
  have hges : get_status_events_after_rowid db last_rowid 200
      (some current_user) =
      (orderByRowidAsc (db.status_events.filter fun e =>
        last_rowid < e.row_num ∧ eventVisibleTo db current_user e)).take
        200 := rfl
  have hperm : List.Perm
      (orderByRowidAsc (db.status_events.filter fun e =>
        last_rowid < e.row_num ∧ eventVisibleTo db current_user e))
      (db.status_events.filter fun e =>
        last_rowid < e.row_num ∧ eventVisibleTo db current_user e) :=
    orderByRowidAsc_perm _
  refine ⟨?_, ?_, ?_, ?_, ?_⟩
  · intro hnil
    simp [stream_poll_once, hnil]
  · intro e hlast
    simp [stream_poll_once, hlast]
  · have hnodup_base : ((db.status_events.filter fun e =>
        last_rowid < e.row_num ∧
          eventVisibleTo db current_user e).map EventRow.row_num).Nodup :=
      List.Nodup.sublist
        (List.Sublist.map EventRow.row_num (List.filter_sublist _)) hnodup
    have hnodup_sorted : ((orderByRowidAsc (db.status_events.filter fun e =>
        last_rowid < e.row_num ∧
          eventVisibleTo db current_user e)).map EventRow.row_num).Nodup :=
      ((hperm.map EventRow.row_num).nodup_iff).mpr hnodup_base
    have hne : (orderByRowidAsc (db.status_events.filter fun e =>
        last_rowid < e.row_num ∧
          eventVisibleTo db current_user e)).Pairwise
          fun a b => a.row_num ≠ b.row_num :=
      List.pairwise_map.mp hnodup_sorted
    have hlt : (orderByRowidAsc (db.status_events.filter fun e =>
        last_rowid < e.row_num ∧
          eventVisibleTo db current_user e)).Pairwise
          fun a b => a.row_num < b.row_num :=
      ((orderByRowidAsc_pairwise _).and hne).imp
        fun h => lt_of_le_of_ne h.1 h.2
    rw [hges]
    exact List.pairwise_map.mpr
      (List.Pairwise.sublist (List.take_sublist _ _) hlt)
  · intro e he
    rw [hges] at he
    have hmem : e ∈ db.status_events.filter fun e =>
        last_rowid < e.row_num ∧ eventVisibleTo db current_user e :=
      hperm.mem_iff.mp (List.take_subset _ _ he)
    have := (List.mem_filter.mp hmem).2
    simpa using this
  · intro hlen e he hcur hvis
    have hmem : e ∈ db.status_events.filter fun e =>
        last_rowid < e.row_num ∧ eventVisibleTo db current_user e :=
      List.mem_filter.mpr ⟨he, by simp [hcur, hvis]⟩
    have hlen' : (orderByRowidAsc (db.status_events.filter fun e =>
        last_rowid < e.row_num ∧
          eventVisibleTo db current_user e)).length ≤ 200 := by
      rw [hperm.length_eq]
      exact hlen
    rw [hges, List.take_of_length_le hlen']
    exact hperm.mem_iff.mpr hmem

/-- Witness for the amended C8: with cursor 1 nothing is newer and the
pass is a heartbeat with an unchanged cursor and a wait; with cursor 0
the emitted batch is strictly ascending. -/
theorem C8_witness :
    stream_poll_once c2_db3 "user1" 1 = ⟨[StreamEmit.heartbeat], 1, true⟩ ∧
    ((get_status_events_after_rowid c2_db3 0 200 (some "user1")).map
      EventRow.row_num).Pairwise (· < ·) := by
  obtain ⟨h1, _, _, _, _⟩ := C8_poll_step_behaviour c2_db3 "user1" 1
    (by decide)
  obtain ⟨_, _, h3, _, _⟩ := C8_poll_step_behaviour c2_db3 "user1" 0
    (by decide)
  exact ⟨h1 (by decide), h3⟩

/-- C9 fails on the code in its response-shape part: uploading a single
`.csv` file is indeed rejected with the "Invalid file type" error, but
with no valid file in the batch the endpoint raises HTTP 400
("No valid files were uploaded.") carrying the per-file errors — an
error response with no `uploaded_count` field — instead of returning a
success body with `uploaded_count = 0`.  State is unchanged. -/
theorem C9_counterexample :
    (upload_document emptyDB [] "user1"
      [⟨some "invalid.csv", some "text/csv", 5⟩] (fun _ => "u0")).1 =
      Except.error ("No valid files were uploaded.",
        [⟨some "invalid.csv",
          "Invalid file type. Only .pdf and .txt files are allowed."⟩]) ∧
    (upload_document emptyDB [] "user1"
      [⟨some "invalid.csv", some "text/csv", 5⟩] (fun _ => "u0")).2.1 =
      emptyDB ∧
    (upload_document emptyDB [] "user1"
      [⟨some "invalid.csv", some "text/csv", 5⟩] (fun _ => "u0")).2.2 =
      [] := by
  exact ⟨rfl, rfl, rfl⟩

/-- C9 as amended: a single uploaded file whose (non-empty) basename has
extension `.csv` is rejected with the "Invalid file type" error; zero
documents are uploaded (store and queue unchanged) and the endpoint
answers with the 400 "No valid files were uploaded." error response
carrying that per-file error, rather than a success body with an
`uploaded_count` field. -/
theorem C9_single_csv_rejected (db : DBState) (q : List String)
    (current_user : String) (file : UploadFileIn) (ids : Nat → String)
    (hname : ¬ basename (file.filename.getD "") = "")
    (hcsv : lowerStr (splitext_ext (basename (file.filename.getD ""))) =
      ".csv") :
    (upload_document db q current_user [file] ids).1 =
      Except.error ("No valid files were uploaded.",
        [⟨some (basename (file.filename.getD "")),
          "Invalid file type. Only .pdf and .txt files are allowed."⟩]) ∧
    (upload_document db q current_user [file] ids).2.1 = db ∧
    (upload_document db q current_user [file] ids).2.2 = q := by
  have hstep : process_upload_file db q current_user (ids 0) file =
      (Sum.inr ⟨some (basename (file.filename.getD "")),
        "Invalid file type. Only .pdf and .txt files are allowed."⟩,
       db, q) := by
    simp only [process_upload_file]
    rw [if_neg hname, hcsv,
      if_pos (by decide :
        ¬ (((".csv" : String) = ".pdf") ∨ ((".csv" : String) = ".txt")))]
  have hres : upload_document db q current_user [file] ids =
      (Except.error ("No valid files were uploaded.",
        [⟨some (basename (file.filename.getD "")),
          "Invalid file type. Only .pdf and .txt files are allowed."⟩]),
       db, q) := by
    simp [upload_document, upload_loop, hstep]
  rw [hres]
  exact ⟨rfl, rfl, rfl⟩

/-- Witness for the amended C9 at a concrete single-`.csv` upload. -/
theorem C9_witness :
    (upload_document emptyDB ["X"] "user1"
      [⟨some "data.csv", some "text/csv", 3⟩] (fun _ => "u1")).1 =
      Except.error ("No valid files were uploaded.",
        [⟨some "data.csv",
          "Invalid file type. Only .pdf and .txt files are allowed."⟩]) ∧
    (upload_document emptyDB ["X"] "user1"
      [⟨some "data.csv", some "text/csv", 3⟩] (fun _ => "u1")).2.1 =
      emptyDB ∧
    (upload_document emptyDB ["X"] "user1"
      [⟨some "data.csv", some "text/csv", 3⟩] (fun _ => "u1")).2.2 =
      ["X"] := by
  have h := C9_single_csv_rejected emptyDB ["X"] "user1"
    ⟨some "data.csv", some "text/csv", 3⟩ (fun _ => "u1")
    (by decide) (by decide)
  simpa using h
